import Mathlib

/-
Verification of the request_token model layer (src/request_token/models.py).

The embedding translates the source file shallowly:

* Django model instances become Lean structures; nullable columns become
  `Option` fields.
* Timestamps (`DateTimeField`) are integers counting microseconds since the
  epoch, matching Python `datetime` precision; `timedelta(minutes=m)` is
  `m * 60 * 1000000`.
* User principals are their integer primary keys; `AnonymousUser` is `none`.
* Exceptions become `Except` results.
* The database is an explicit `Store` value threaded through the stateful
  operations; `transaction.atomic` on `log` is modelled by returning the
  original store when the wrapped operations fail.
-/

set_option autoImplicit false
set_option linter.unnecessarySeqFocus false

namespace RT

/-- The three `LOGIN_MODE_*` constants of `RequestToken`
(`'None'`, `'Request'`, `'Session'`). -/
inductive LoginMode where
  | NONE
  | REQUEST
  | SESSION
  deriving DecidableEq, Repr

/-- The exception values that flow through the model layer: `MaxUseError`,
`ScopeError`, `InvalidAudienceError`, plus the Python-level faults that the
source can raise while handling malformed in-memory instances
(`TypeError` from `'%i' % None`, `AttributeError` from `None.backend`). -/
inductive TokenError where
  | maxUseError (msg : String)
  | scopeError (msg : String)
  | invalidAudienceError (msg : String)
  | typeError (msg : String)
  | attributeError (msg : String)
  deriving DecidableEq, Repr

/-- Python `type(error).__name__` for a `TokenError`. -/
def TokenError.typeName : TokenError → String
  | .maxUseError _ => "MaxUseError"
  | .scopeError _ => "ScopeError"
  | .invalidAudienceError _ => "InvalidAudienceError"
  | .typeError _ => "TypeError"
  | .attributeError _ => "AttributeError"

/-- Python `str(error)` for a `TokenError`. -/
def TokenError.message : TokenError → String
  | .maxUseError m => m
  | .scopeError m => m
  | .invalidAudienceError m => m
  | .typeError m => m
  | .attributeError m => m

/-- A Django `ValidationError({field: message})` as raised by
`RequestToken.clean` (each raise site passes a one-entry dict). -/
structure ValidationError where
  field : String
  message : String
  deriving DecidableEq, Repr

/-- The `RequestToken` model: one row of the token table, or an in-memory
unsaved instance (`id = none`). Field names and nullability follow the
Django field declarations in `models.py`. -/
structure RequestToken where
  id : Option Nat
  login_mode : LoginMode
  user : Option Nat
  scope : String
  expiration_time : Option Int
  not_before_time : Option Int
  data : String
  issued_at : Option Int
  max_uses : Int
  used_to_date : Int
  deriving DecidableEq, Repr

/-- The slice of a Django `HttpRequest` that the model layer reads and
writes: the current principal (`request.user`, `none` when anonymous), the
durable session principal (written by `django.contrib.auth.login`), and the
`request.META` keys used by `log`. -/
structure Request where
  user : Option Nat
  session : Option Nat
  http_user_agent : Option String
  http_x_forwarded_for : Option String
  remote_addr : Option String
  deriving DecidableEq, Repr

/-- The `RequestTokenLog` model (one usage-ledger row). -/
structure RequestTokenLog where
  id : Nat
  token : Option Nat
  user : Option Nat
  user_agent : String
  client_ip : Option String
  status_code : Option Int
  timestamp : Option Int
  deriving DecidableEq, Repr

/-- The `RequestTokenErrorLog` model (one error row, one-to-one with a
`RequestTokenLog` row through its `log` foreign key). -/
structure RequestTokenErrorLog where
  token : Option Nat
  log : Nat
  error_type : String
  error_message : String
  deriving DecidableEq, Repr

/-- The persistent store: token rows, usage-log rows and error rows,
together with the id sequences used for inserts. -/
structure Store where
  tokens : List RequestToken
  next_token_id : Nat
  logs : List RequestTokenLog
  next_log_id : Nat
  errors : List RequestTokenErrorLog
  deriving DecidableEq, Repr

/-- Modelled from the spec: the process-wide read-only configuration
(`request_token/settings.py` is not under src/). `LOG_TOKEN_ERRORS` gates
error logging in `log`; `JWT_SESSION_TOKEN_EXPIRY` is the session TTL in
minutes used by `save`. -/
structure Config where
  log_token_errors : Bool
  jwt_session_token_expiry : Int
  deriving DecidableEq, Repr

/-- Python `timedelta(minutes=m)` in epoch microseconds. -/
def minutes (m : Int) : Int :=
  m * 60 * 1000000

/-- Modelled from the spec: `utils.to_seconds` (the `utils` module is not
under src/) converts a datetime to "seconds since epoch (integer, floor)". -/
def to_seconds (dt : Int) : Int :=
  Int.fdiv dt 1000000

/-- Python `str(x)` for an optional integer id: `'None'` when absent. -/
def pyStrOptNat : Option Nat → String
  | none => "None"
  | some n => toString n

/-- Python whitespace classifier used by `str.strip()`. -/
def isPySpace (c : Char) : Bool :=
  c == ' ' || c == '\t' || c == '\n' || c == '\r' || c == '\x0b' || c == '\x0c'

/-- Python `str.strip()` on a character list: drop whitespace from both
ends. -/
def pyStripL (l : List Char) : List Char :=
  ((l.dropWhile isPySpace).reverse.dropWhile isPySpace).reverse

/-- Python `str.split(sep)` for a one-character separator: always returns a
non-empty list of (possibly empty) fields. -/
def pySplit (sep : Char) : List Char → List (List Char)
  | [] => [[]]
  | c :: cs =>
    if c = sep then
      [] :: pySplit sep cs
    else
      match pySplit sep cs with
      | [] => [[c]]
      | hd :: tl => (c :: hd) :: tl

/-- `parse_xff` (models.py lines 331-347):
`header_value.split(',')[0].strip()`, with the `AttributeError` raised for
a `None` header caught and turned into `None`. -/
def parse_xff (header_value : Option String) : Option String :=
  match header_value with
  | none => none
  | some s => some (String.mk (pyStripL ((pySplit ',' s.toList).headD [])))

/-- The `MaxUseError` message built in `validate_max_uses`:
`'RequestToken [%s] has exceeded max uses' % self.id`. -/
def maxUseMsg (t : RequestToken) : String :=
  "RequestToken [" ++ pyStrOptNat t.id ++ "] has exceeded max uses"

/-- `RequestToken.validate_max_uses` (models.py lines 229-238): raise
`MaxUseError` when `used_to_date >= max_uses`; a pure read, returning no
modified entity. -/
def RequestToken.validate_max_uses (t : RequestToken) : Except TokenError Unit :=
  if t.used_to_date ≥ t.max_uses then
    .error (.maxUseError (maxUseMsg t))
  else
    .ok ()

/-- The stored string of the `login_mode` field (`'None'`, `'Request'`,
`'Session'`). -/
def login_mode_str : LoginMode → String
  | .NONE => "None"
  | .REQUEST => "Request"
  | .SESSION => "Session"

/-- Python `s[:1].lower()` for the ASCII mode labels. -/
def pyFirstLower (s : String) : String :=
  String.mk ((s.toList.take 1).map Char.toLower)

/-- A claim value in the JWT claims dict: integers (`max`, `jti`, `aud`,
`exp`, `iat`, `nbf`) or strings (`sub`, `mod`). -/
inductive ClaimValue where
  | int (n : Int)
  | str (s : String)
  deriving DecidableEq, Repr

/-- One conditional dict entry: `claims[k] = v` executed only when the
source value is not `None`. -/
def optClaim (k : String) (v : Option ClaimValue) : List (String × ClaimValue) :=
  match v with
  | some x => [(k, x)]
  | none => []

/-- `RequestToken.claims` (models.py lines 170-188): the dict of JWT claims,
with `max`/`sub`/`mod` always present and `jti`/`aud`/`exp`/`iat`/`nbf`
present only when the corresponding field is set. The `data` field is never
consulted. -/
def RequestToken.claims (t : RequestToken) : List (String × ClaimValue) :=
  [("max", ClaimValue.int t.max_uses),
   ("sub", ClaimValue.str t.scope),
   ("mod", ClaimValue.str (pyFirstLower (login_mode_str t.login_mode)))]
  ++ optClaim "jti" (t.id.map (fun i => ClaimValue.int (Int.ofNat i)))
  ++ optClaim "aud" (t.user.map (fun u => ClaimValue.int (Int.ofNat u)))
  ++ optClaim "exp" (t.expiration_time.map (fun d => ClaimValue.int (to_seconds d)))
  ++ optClaim "iat" (t.issued_at.map (fun d => ClaimValue.int (to_seconds d)))
  ++ optClaim "nbf" (t.not_before_time.map (fun d => ClaimValue.int (to_seconds d)))

/-- `RequestToken.clean` (models.py lines 190-211): the three sequential
`login_mode` checks; the first failing check raises `ValidationError` with a
one-entry field dict (note the source passes the key `'expiration_time'` in
the `LOGIN_MODE_REQUEST` branch). -/
def RequestToken.clean (t : RequestToken) : Except ValidationError Unit :=
  match t.login_mode with
  | .NONE => .ok ()
  | .SESSION =>
    if t.user = none then
      .error ⟨"user", "Session token must have a user."⟩
    else if t.max_uses ≠ 1 then
      .error ⟨"max_uses", "Session token must have max_use of 1."⟩
    else if t.expiration_time = none then
      .error ⟨"expiration_time", "Session token must have an expiration_time."⟩
    else
      .ok ()
  | .REQUEST =>
    if t.user = none then
      .error ⟨"expiration_time", "Request token must have a user."⟩
    else
      .ok ()

/-- The field mutations at the top of `RequestToken.save` (models.py lines
214-220): when `update_fields` is absent, default `issued_at` to the current
time and, for SESSION mode, default `expiration_time` to
`issued_at + timedelta(minutes=JWT_SESSION_TOKEN_EXPIRY)`. -/
def pre_save (t : RequestToken) (now : Int) (ttl : Int) (update_fields : Bool) :
    RequestToken :=
  if update_fields then
    t
  else
    let issued := match t.issued_at with
      | some x => some x
      | none => some now
    let t1 := { t with issued_at := issued }
    if t1.login_mode = .SESSION then
      { t1 with
        expiration_time := match t1.expiration_time with
          | some e => some e
          | none => issued.map (fun i => i + minutes ttl) }
    else
      t1

/-- `RequestToken.save` (models.py lines 213-223): apply the `pre_save`
mutations, run `clean` (propagating its `ValidationError` with the store
untouched), then insert or update the row and return the saved instance. -/
def RequestToken.save (s : Store) (t : RequestToken) (now : Int) (ttl : Int)
    (update_fields : Bool) : Store × Except ValidationError RequestToken :=
  let t1 := pre_save t now ttl update_fields
  match t1.clean with
  | .error e => (s, .error e)
  | .ok _ =>
    match t1.id with
    | none =>
      let t2 := { t1 with id := some s.next_token_id }
      ({ s with
          tokens := s.tokens ++ [t2],
          next_token_id := s.next_token_id + 1 },
       .ok t2)
    | some _ =>
      ({ s with
          tokens := s.tokens.map (fun row => if row.id = t1.id then t1 else row) },
       .ok t1)

/-- Modelled from the spec: `django.contrib.auth.login` is the external
identity capability invoked by `_auth_is_anonymous`; it establishes "a
durable session for token.audience_user (equivalent to a full login)" and
sets the request principal. -/
def django_login (r : Request) (u : Nat) : Request :=
  { r with user := some u, session := some u }

/-- `RequestToken._auth_is_anonymous` (models.py lines 240-265), reached
only when `request.user.is_anonymous`: NONE passes, REQUEST assigns
`request.user = self.user`, SESSION sets `self.user.backend` (an
`AttributeError` when `self.user` is `None`) and calls `login`. The
`logger.debug` calls are no-ops here (lazy formatting). -/
def RequestToken.auth_is_anonymous (t : RequestToken) (r : Request) :
    Except TokenError Request :=
  match t.login_mode with
  | .NONE => .ok r
  | .REQUEST => .ok { r with user := t.user }
  | .SESSION =>
    match t.user with
    | none =>
      .error (.attributeError "NoneType object has no attribute backend")
    | some u => .ok (django_login r u)

/-- The `InvalidAudienceError` message built in `_auth_is_authenticated`:
`"RequestToken [%i] audience mismatch: '%s' != '%s'" % (self.id,
request.user, self.user)`. The `%i` conversion raises `TypeError` when
`self.id` is `None`. -/
def audienceMismatchMsg (t : RequestToken) (ru : Nat) : Except TokenError String :=
  match t.id with
  | none => .error (.typeError "%i format: a number is required, not NoneType")
  | some i =>
    .ok ("RequestToken [" ++ toString i ++ "] audience mismatch: '"
      ++ toString ru ++ "' != '" ++ pyStrOptNat t.user ++ "'")

/-- `RequestToken._auth_is_authenticated` (models.py lines 267-280), reached
only when `request.user.is_authenticated` (`ru` is the current principal):
NONE returns the request, a matching user returns the request, otherwise
`InvalidAudienceError` is raised (its `%`-formatted message failing first
with `TypeError` when `self.id` is `None`). -/
def RequestToken.auth_is_authenticated (t : RequestToken) (r : Request) (ru : Nat) :
    Except TokenError Request :=
  match t.login_mode with
  | .NONE => .ok r
  | _ =>
    if r.user = t.user then
      .ok r
    else
      match audienceMismatchMsg t ru with
      | .error e => .error e
      | .ok msg => .error (.invalidAudienceError msg)

/-- `RequestToken.authenticate` (models.py lines 282-292): dispatch on
`request.user.is_anonymous`. -/
def RequestToken.authenticate (t : RequestToken) (r : Request) :
    Except TokenError Request :=
  match r.user with
  | none => t.auth_is_anonymous r
  | some ru => t.auth_is_authenticated r ru

/-- Observer: did `authenticate` end in an `InvalidAudienceError`? -/
def isInvalidAudience (res : Except TokenError Request) : Bool :=
  match res with
  | .error (.invalidAudienceError _) => true
  | _ => false

/-- Observer: did the call succeed? -/
def exceptOk {ε α : Type} (res : Except ε α) : Bool :=
  match res with
  | .ok _ => true
  | .error _ => false

/-- Python `a or b` over optional strings: the empty string is falsy, so an
empty first operand also falls through to `b`. -/
def pyOrStr (a b : Option String) : Option String :=
  match a with
  | none => b
  | some s => if s = "" then b else some s

/-- `RequestTokenErrorLogQuerySet.create_error_log` (models.py lines
408-416): constructs a `RequestTokenErrorLog` instance from the usage log
and the error. The source returns the instance without calling `.save()`,
so the row it describes is never inserted. -/
def create_error_log (log : RequestTokenLog) (error : TokenError) :
    RequestTokenErrorLog :=
  { token := log.token,
    log := log.id,
    error_type := error.typeName,
    error_message := error.message }

/-- `RequestTokenLog.save` (models.py lines 401-405) as invoked from `log`
(no `update_fields`, fresh instance): default `timestamp` to the current
time and insert the row with a fresh id. -/
def log_save (s : Store) (lg : RequestTokenLog) (now : Int) :
    Store × RequestTokenLog :=
  let lg1 := { lg with
    id := s.next_log_id,
    timestamp := match lg.timestamp with
      | some ts => some ts
      | none => some now }
  ({ s with logs := s.logs ++ [lg1], next_log_id := s.next_log_id + 1 }, lg1)

/-- `self.logs.filter(error__isnull=True).count()` (models.py line 326): the
number of usage-log rows of this token with no error row attached through
the one-to-one `log` foreign key. -/
def countNonErrorLogs (s : Store) (tid : Option Nat) : Int :=
  Int.ofNat (s.logs.filter
    (fun lg => lg.token == tid && s.errors.all (fun e => e.log ≠ lg.id))).length

/-- The commit/rollback step at the end of `RequestToken.log`: when the
final `self.save()` succeeded the transaction commits (the store produced
by the earlier writes and the save), and its `ValidationError` otherwise
rolls the whole `transaction.atomic` block back to the incoming store `s`
and propagates. -/
def log_finish (s : Store) (lg : RequestTokenLog)
    (elog : Option RequestTokenErrorLog)
    (res : Store × Except ValidationError RequestToken) :
    Store × Except ValidationError
      (RequestTokenLog × RequestToken × Option RequestTokenErrorLog) :=
  match res with
  | (s2, .ok t2) => (s2, .ok (lg, t2, elog))
  | (_, .error e) => (s, .error e)

/-- `RequestToken.log` (models.py lines 294-328), a `transaction.atomic`
operation: insert the `RequestTokenLog` row built from the request and
response; when an error was passed and `LOG_TOKEN_ERRORS` is on, call
`create_error_log` (whose result the source discards without saving it, so
the error store never changes); recompute `used_to_date` as the non-error
log count and `self.save()`, committing or rolling back through
`log_finish`. The returned triple carries the saved log row, the saved
token and the constructed (never persisted) error-log instance. -/
def RequestToken.log (t : RequestToken) (r : Request) (status_code : Int)
    (error : Option TokenError) (cfg : Config) (s : Store) (now : Int) :
    Store × Except ValidationError
      (RequestTokenLog × RequestToken × Option RequestTokenErrorLog) :=
  let lg0 : RequestTokenLog :=
    { id := 0,
      token := t.id,
      user := r.user,
      user_agent := (r.http_user_agent).getD "unknown",
      client_ip := pyOrStr (parse_xff r.http_x_forwarded_for) r.remote_addr,
      status_code := some status_code,
      timestamp := none }
  let s1lg := log_save s lg0 now
  let s1 := s1lg.1
  let lg := s1lg.2
  let elog : Option RequestTokenErrorLog :=
    match error with
    | some e => if cfg.log_token_errors then some (create_error_log lg e) else none
    | none => none
  let t1 := { t with used_to_date := countNonErrorLogs s1 t.id }
  log_finish s lg elog (t1.save s1 now cfg.jwt_session_token_expiry false)

/-- The token row with the given id, as persisted in the store. -/
def Store.tokenRow (s : Store) (i : Nat) : Option RequestToken :=
  s.tokens.find? (fun row => row.id == some i)

/-- An anonymous request with no metadata headers. -/
def reqAnon : Request :=
  { user := none, session := none, http_user_agent := none,
    http_x_forwarded_for := none, remote_addr := none }

/-- A request already authenticated as user 1. -/
def reqAuth1 : Request :=
  { user := some 1, session := some 1, http_user_agent := none,
    http_x_forwarded_for := none, remote_addr := none }

/-- A persisted single-use NONE-mode token that has already been used once
(`used_to_date = 1 = max_uses`). -/
def tokUsedUp : RequestToken :=
  { id := some 1, login_mode := .NONE, user := none, scope := "foo",
    expiration_time := none, not_before_time := none, data := "",
    issued_at := some 0, max_uses := 1, used_to_date := 1 }

/-- The ledger row of `tokUsedUp`'s first (successful) use. -/
def lgPrior : RequestTokenLog :=
  { id := 1, token := some 1, user := none, user_agent := "ua",
    client_ip := none, status_code := some 200, timestamp := some 0 }

/-- A store holding `tokUsedUp`, its one successful usage row, and no error
rows. -/
def storeC1 : Store :=
  { tokens := [tokUsedUp], next_token_id := 2, logs := [lgPrior],
    next_log_id := 2, errors := [] }

/-- Configuration with error logging enabled. -/
def cfgOn : Config := { log_token_errors := true, jwt_session_token_expiry := 10 }

/-- Configuration with error logging disabled. -/
def cfgOff : Config := { log_token_errors := false, jwt_session_token_expiry := 10 }

/-- The failed second use of `tokUsedUp`: `log` is called with a
`MaxUseError` and error logging enabled. -/
def logRunOn :
    Store × Except ValidationError
      (RequestTokenLog × RequestToken × Option RequestTokenErrorLog) :=
  tokUsedUp.log reqAnon 403 (some (TokenError.maxUseError "foo")) cfgOn storeC1 5

/-- The ledger row written by the failed second use of `tokUsedUp`. -/
def lgSecond : RequestTokenLog :=
  { id := 2, token := some 1, user := none, user_agent := "unknown",
    client_ip := none, status_code := some 403, timestamp := some 5 }

/-- An unsaved REQUEST-mode token (`id = None`) bound to user 2. -/
def tokC3cx : RequestToken :=
  { id := none, login_mode := .REQUEST, user := some 2, scope := "foo",
    expiration_time := none, not_before_time := none, data := "",
    issued_at := none, max_uses := 1, used_to_date := 0 }

/-- A persisted REQUEST-mode token (`id = 7`) bound to user 2. -/
def tokC3w : RequestToken :=
  { id := some 7, login_mode := .REQUEST, user := some 2, scope := "foo",
    expiration_time := none, not_before_time := none, data := "",
    issued_at := some 0, max_uses := 1, used_to_date := 0 }

/-- A SESSION-mode token with no `user` assigned. -/
def tokC4cx : RequestToken :=
  { id := some 3, login_mode := .SESSION, user := none, scope := "s",
    expiration_time := some 1000000, not_before_time := none, data := "",
    issued_at := some 0, max_uses := 1, used_to_date := 0 }

/-- A SESSION-mode token bound to user 5. -/
def tokC4w : RequestToken :=
  { id := some 4, login_mode := .SESSION, user := some 5, scope := "s",
    expiration_time := some 1000000, not_before_time := none, data := "",
    issued_at := some 0, max_uses := 1, used_to_date := 0 }

/-- An unsaved SESSION-mode token with no `user` (fails `clean`). -/
def tokC5w : RequestToken :=
  { id := none, login_mode := .SESSION, user := none, scope := "s",
    expiration_time := none, not_before_time := none, data := "",
    issued_at := none, max_uses := 1, used_to_date := 0 }

/-- An unsaved, valid SESSION-mode token with no `expiration_time` and no
`issued_at` supplied. -/
def tokC6w : RequestToken :=
  { id := none, login_mode := .SESSION, user := some 3, scope := "s",
    expiration_time := none, not_before_time := none, data := "",
    issued_at := none, max_uses := 1, used_to_date := 0 }

/-- The empty store. -/
def storeEmpty : Store :=
  { tokens := [], next_token_id := 1, logs := [], next_log_id := 1, errors := [] }

/-- The row `tokC6w` becomes after a successful `save` at time 100 with a
10-minute TTL. -/
def tokC6saved : RequestToken :=
  { id := some 1, login_mode := .SESSION, user := some 3, scope := "s",
    expiration_time := some 600000100, not_before_time := none, data := "",
    issued_at := some 100, max_uses := 1, used_to_date := 0 }

/-- The store after `tokC6w` is saved into `storeEmpty`. -/
def storeC6saved : Store :=
  { tokens := [tokC6saved], next_token_id := 2, logs := [], next_log_id := 1,
    errors := [] }

/-- `tokUsedUp` after the failed second use was also counted. -/
def tokAfterFail : RequestToken :=
  { id := some 1, login_mode := .NONE, user := none, scope := "foo",
    expiration_time := none, not_before_time := none, data := "",
    issued_at := some 0, max_uses := 1, used_to_date := 2 }

deriving instance DecidableEq for Except

/-- Python `split` never returns an empty list. -/
theorem pySplit_ne_nil (sep : Char) (l : List Char) : pySplit sep l ≠ [] := by
  cases l with
  | nil => simp [pySplit]
  | cons c cs =>
    simp only [pySplit]
    split
    · simp
    · split <;> simp

/-- The first field of a comma `split` is the longest comma-free prefix. -/
theorem pySplit_headD (l : List Char) :
    (pySplit ',' l).headD [] = l.takeWhile (fun c => c != ',') := by
  induction l with
  | nil => rfl
  | cons c cs ih =>
    by_cases h : c = ','
    · subst h
      simp [pySplit, List.takeWhile_cons]
    · obtain ⟨hd, tl, heq⟩ := List.exists_cons_of_ne_nil (pySplit_ne_nil ',' cs)
      rw [heq] at ih
      simp only [pySplit, if_neg h, heq, List.headD, List.takeWhile_cons] at ih ⊢
      simp [h, ih]

/-- `pre_save` never touches `login_mode`. -/
theorem pre_save_login_mode (t : RequestToken) (now ttl : Int) (b : Bool) :
    (pre_save t now ttl b).login_mode = t.login_mode := by
  cases b <;> simp [pre_save] <;> split <;> rfl

/-- `pre_save` never touches `user`. -/
theorem pre_save_user (t : RequestToken) (now ttl : Int) (b : Bool) :
    (pre_save t now ttl b).user = t.user := by
  cases b <;> simp [pre_save] <;> split <;> rfl

/-- `pre_save` never touches `max_uses`. -/
theorem pre_save_max_uses (t : RequestToken) (now ttl : Int) (b : Bool) :
    (pre_save t now ttl b).max_uses = t.max_uses := by
  cases b <;> simp [pre_save] <;> split <;> rfl

/-- `pre_save` never touches `used_to_date`. -/
theorem pre_save_used_to_date (t : RequestToken) (now ttl : Int) (b : Bool) :
    (pre_save t now ttl b).used_to_date = t.used_to_date := by
  cases b <;> simp [pre_save] <;> split <;> rfl

/-- `pre_save` never touches `id`. -/
theorem pre_save_id (t : RequestToken) (now ttl : Int) (b : Bool) :
    (pre_save t now ttl b).id = t.id := by
  cases b <;> simp [pre_save] <;> split <;> rfl

/-- A normal save keeps an existing `issued_at` and defaults a missing one
to the current time. -/
theorem pre_save_issued_at (t : RequestToken) (now ttl : Int) :
    (pre_save t now ttl false).issued_at = some (t.issued_at.getD now) := by
  cases hi : t.issued_at <;> simp [pre_save, hi] <;> split <;> rfl

/-- For SESSION tokens a normal save keeps an existing `expiration_time`
and defaults a missing one to `issued_at + timedelta(minutes=ttl)`. -/
theorem pre_save_session_expiration (t : RequestToken) (now ttl : Int)
    (hmode : t.login_mode = .SESSION) :
    (pre_save t now ttl false).expiration_time
      = some ((t.expiration_time).getD (t.issued_at.getD now + minutes ttl)) := by
  cases he : t.expiration_time <;> cases hi : t.issued_at <;>
    simp [pre_save, he, hi, hmode]

/-- Fields of the entity returned by a successful `save`, and the parts of
the store a `save` never writes. -/
theorem save_ok_fields (s : Store) (t : RequestToken) (now ttl : Int) (b : Bool)
    (s2 : Store) (t2 : RequestToken)
    (hsave : t.save s now ttl b = (s2, .ok t2)) :
    t2.expiration_time = (pre_save t now ttl b).expiration_time
    ∧ t2.issued_at = (pre_save t now ttl b).issued_at
    ∧ t2.used_to_date = t.used_to_date
    ∧ t2.login_mode = t.login_mode
    ∧ s2.errors = s.errors
    ∧ s2.logs = s.logs
    ∧ s2.next_log_id = s.next_log_id := by
  simp only [RequestToken.save] at hsave
  split at hsave
  · simp at hsave
  · split at hsave <;>
      (injection hsave with h1 h2; injection h2 with h2; subst h1; subst h2;
        simp [pre_save_used_to_date, pre_save_login_mode])

/-- What `clean` reduces to on the `pre_save` result of a SESSION token:
the `expiration_time` branch is unreachable because the auto-fill always
sets it. -/
theorem session_clean_chars (t : RequestToken) (now ttl : Int)
    (h : t.login_mode = .SESSION) :
    (pre_save t now ttl false).clean
      = (if t.user = none then
          .error ⟨"user", "Session token must have a user."⟩
        else if t.max_uses ≠ 1 then
          .error ⟨"max_uses", "Session token must have max_use of 1."⟩
        else .ok ()) := by
  have hl := pre_save_login_mode t now ttl false
  have hu := pre_save_user t now ttl false
  have hm := pre_save_max_uses t now ttl false
  have hx := pre_save_session_expiration t now ttl h
  simp only [RequestToken.clean, h ▸ hl, hu, hm, hx]
  split <;> simp

/-- Appending a usage row for the counted token, with an id no error row
references, grows the non-error count by exactly one. -/
theorem count_append_fresh (s : Store) (lg : RequestTokenLog) (tid : Option Nat)
    (htok : lg.token = tid) (hfresh : ∀ e ∈ s.errors, e.log ≠ lg.id) :
    countNonErrorLogs
        { s with logs := s.logs ++ [lg], next_log_id := s.next_log_id + 1 } tid
      = countNonErrorLogs s tid + 1 := by
  subst htok
  have hall : (s.errors.all fun e => !decide (e.log = lg.id)) = true := by
    rw [List.all_eq_true]
    intro e he
    simpa using hfresh e he
  simp only [countNonErrorLogs, List.filter_append, List.filter_singleton,
    List.length_append]
  simp [hall]

/-- `log_save` returns the incoming store with exactly the new row
appended and the id sequence bumped. -/
theorem log_save_store (s : Store) (lg0 : RequestTokenLog) (now : Int) :
    (log_save s lg0 now).1
      = { s with logs := s.logs ++ [(log_save s lg0 now).2],
                 next_log_id := s.next_log_id + 1 } := by
  simp [log_save]

/-- The inserted usage row receives the next id of the sequence. -/
theorem log_save_id (s : Store) (lg0 : RequestTokenLog) (now : Int) :
    (log_save s lg0 now).2.id = s.next_log_id := rfl

/-- The inserted usage row keeps the token reference it was built with. -/
theorem log_save_token (s : Store) (lg0 : RequestTokenLog) (now : Int) :
    (log_save s lg0 now).2.token = lg0.token := rfl

/-- `log_save` never writes the error table. -/
theorem log_save_errors (s : Store) (lg0 : RequestTokenLog) (now : Int) :
    (log_save s lg0 now).1.errors = s.errors := rfl

/-- Inverting a committed `log_finish`: the returned row and error-log
instance are the ones passed in, and the save result the commit consumed is
recoverable. -/
theorem log_finish_ok (s : Store) (lg : RequestTokenLog)
    (el : Option RequestTokenErrorLog)
    (res : Store × Except ValidationError RequestToken)
    (lg2 : RequestTokenLog) (t2 : RequestToken) (eo : Option RequestTokenErrorLog)
    (h : (log_finish s lg el res).2 = .ok (lg2, t2, eo)) :
    lg2 = lg ∧ eo = el ∧ res = ((log_finish s lg el res).1, .ok t2) := by
  rcases res with ⟨s2, r⟩
  cases r with
  | ok tk =>
    simp only [log_finish, Except.ok.injEq, Prod.mk.injEq] at h
    exact ⟨h.1.symm, h.2.2.symm, by simp [log_finish, h.2.1]⟩
  | error e => simp [log_finish] at h

/-- C1: evaluation of `log` at the failing input. A failed second use of
the exhausted token `tokUsedUp` (a `MaxUseError` passed with
`LOG_TOKEN_ERRORS` enabled) leaves the error table empty, so the failed
attempt's usage row has no attached error row, the non-error count includes
it, and the persisted `used_to_date` rises from 1 to 2 — the claim says the
attempt is excluded and `used_to_date` stays 1. -/
theorem C1_failed_attempt_increments_used_count :
    logRunOn.1.errors = []
    ∧ (logRunOn.1.tokenRow 1).map RequestToken.used_to_date = some 2
    ∧ countNonErrorLogs logRunOn.1 (some 1) = 2
    ∧ logRunOn.1.logs = [lgPrior, lgSecond] := by
  decide

/-- C2: evaluation of `log` at the failing input. With `LOG_TOKEN_ERRORS`
enabled and a `MaxUseError` passed, `create_error_log` builds the error-log
instance (with the error kind name and message) and `log` returns it, but
the instance is never saved: the persisted error table stays empty, so no
attached ErrorRecord exists for the attempt — the claim says exactly one is
persisted. -/
theorem C2_error_record_never_persisted :
    logRunOn.2 = .ok (lgSecond, tokAfterFail,
        some { token := some 1, log := 2, error_type := "MaxUseError",
               error_message := "foo" })
    ∧ logRunOn.1.errors = [] := by
  decide

/-- C3 counterexample: for an unsaved REQUEST-mode token (`id = None`)
bound to user 2 and a request authenticated as user 1, the audience
mismatch condition of the claim holds, yet `authenticate` does not raise
`AudienceMismatchError`: building its message crashes first with
`TypeError` (`'%i' % None`). -/
theorem C3_unsaved_token_counterexample :
    (tokC3cx.login_mode ≠ LoginMode.NONE ∧ reqAuth1.user ≠ tokC3cx.user
      ∧ reqAuth1.user.isSome = true)
    ∧ isInvalidAudience (tokC3cx.authenticate reqAuth1) = false
    ∧ tokC3cx.authenticate reqAuth1
        = .error (.typeError "%i format: a number is required, not NoneType") := by
  decide

/-- C3 (amended): for every token whose id is set and every request
authenticated as `v`, `authenticate` raises `AudienceMismatchError` exactly
when `login_mode` is REQUEST or SESSION and the principal differs from the
token's `user`; with `login_mode` NONE or a matching principal it returns
the request unchanged. -/
theorem C3_authenticated_audience_check (t : RequestToken) (r : Request)
    (v i : Nat) (hr : r.user = some v) (hid : t.id = some i) :
    (isInvalidAudience (t.authenticate r) = true
        ↔ (t.login_mode ≠ .NONE ∧ t.user ≠ some v))
    ∧ ((t.login_mode = .NONE ∨ t.user = some v) → t.authenticate r = .ok r) := by
  have hauth : t.authenticate r = t.auth_is_authenticated r v := by
    simp [RequestToken.authenticate, hr]
  rw [hauth]
  cases hm : t.login_mode
  case NONE => simp [RequestToken.auth_is_authenticated, hm, isInvalidAudience]
  all_goals
    by_cases hu : r.user = t.user
    · have htu : t.user = some v := by rw [← hu, hr]
      simp [RequestToken.auth_is_authenticated, hm, hu, isInvalidAudience, htu]
    · have htu : t.user ≠ some v := fun h => hu (hr.trans h.symm)
      simp [RequestToken.auth_is_authenticated, hm, hu, isInvalidAudience,
        audienceMismatchMsg, hid, htu]

/-- C3 witness: the amended statement instantiated at the persisted
REQUEST-mode token `tokC3w` (id 7, bound to user 2) and a request
authenticated as user 1. -/
theorem C3_authenticated_audience_check_witness :
    reqAuth1.user = some 1 ∧ tokC3w.id = some 7
    ∧ ((isInvalidAudience (tokC3w.authenticate reqAuth1) = true
          ↔ (tokC3w.login_mode ≠ .NONE ∧ tokC3w.user ≠ some 1))
        ∧ ((tokC3w.login_mode = .NONE ∨ tokC3w.user = some 1)
            → tokC3w.authenticate reqAuth1 = .ok reqAuth1)) :=
  ⟨rfl, rfl, C3_authenticated_audience_check tokC3w reqAuth1 1 7 rfl rfl⟩

/-- C4 counterexample: a SESSION-mode token with no `user` assigned, used
by an anonymous request, makes `authenticate` fail (the source sets
`self.user.backend` on `None`, an `AttributeError`) — the claim says
`authenticate` never fails for anonymous requests. -/
theorem C4_session_without_user_counterexample :
    exceptOk (tokC4cx.authenticate reqAnon) = false
    ∧ tokC4cx.authenticate reqAnon
        = .error (.attributeError "NoneType object has no attribute backend") := by
  decide

/-- C4 (amended): for every anonymous request, NONE-mode tokens leave the
request untouched, REQUEST-mode tokens set the request principal to the
token's `user` without touching the session, SESSION-mode tokens with a
`user` perform a full login (principal and durable session), and
`authenticate` never fails provided SESSION-mode tokens have their
`user` set. -/
theorem C4_anonymous_resolution (t : RequestToken) (r : Request) (u : Nat)
    (hr : r.user = none) :
    (t.login_mode = .NONE → t.authenticate r = .ok r)
    ∧ (t.login_mode = .REQUEST → t.authenticate r = .ok { r with user := t.user })
    ∧ (t.login_mode = .SESSION → t.user = some u →
        t.authenticate r = .ok { r with user := some u, session := some u })
    ∧ ((t.login_mode = .SESSION → t.user ≠ none)
        → exceptOk (t.authenticate r) = true) := by
  cases hm : t.login_mode <;>
    cases hu : t.user <;>
      simp [RequestToken.authenticate, RequestToken.auth_is_anonymous,
        django_login, exceptOk, hr, hm, hu]

/-- C4 witness: the amended statement instantiated at the SESSION-mode
token `tokC4w` (bound to user 5) and the anonymous request `reqAnon`. -/
theorem C4_anonymous_resolution_witness :
    reqAnon.user = none
    ∧ ((tokC4w.login_mode = .NONE → tokC4w.authenticate reqAnon = .ok reqAnon)
      ∧ (tokC4w.login_mode = .REQUEST
          → tokC4w.authenticate reqAnon = .ok { reqAnon with user := tokC4w.user })
      ∧ (tokC4w.login_mode = .SESSION → tokC4w.user = some 5 →
          tokC4w.authenticate reqAnon
            = .ok { reqAnon with user := some 5, session := some 5 })
      ∧ ((tokC4w.login_mode = .SESSION → tokC4w.user ≠ none)
          → exceptOk (tokC4w.authenticate reqAnon) = true)) :=
  ⟨rfl, C4_anonymous_resolution tokC4w reqAnon 5 rfl⟩

/-- C5: for every SESSION-mode token, `save` fails with `ValidationError`
exactly when `user` is unset or `max_uses` is not 1 or the auto-filled
`expiration_time` is unset; on failure the store is untouched and the
error carries the offending field name (`user` when the user is missing,
`max_uses` when only the use limit is wrong; the `expiration_time` branch
is unreachable because the auto-fill always sets it). -/
theorem C5_session_save_validation (s : Store) (t : RequestToken)
    (now ttl : Int) (h : t.login_mode = .SESSION) :
    (exceptOk (t.save s now ttl false).2 = false
      ↔ ¬(t.user ≠ none ∧ t.max_uses = 1
            ∧ (pre_save t now ttl false).expiration_time ≠ none))
    ∧ (exceptOk (t.save s now ttl false).2 = false → (t.save s now ttl false).1 = s)
    ∧ ((t.save s now ttl false).2
          = .error ⟨"user", "Session token must have a user."⟩ ↔ t.user = none)
    ∧ ((t.save s now ttl false).2
          = .error ⟨"max_uses", "Session token must have max_use of 1."⟩
        ↔ (t.user ≠ none ∧ t.max_uses ≠ 1)) := by
  have hclean := session_clean_chars t now ttl h
  have hx := pre_save_session_expiration t now ttl h
  by_cases hu : t.user = none
  · rw [if_pos hu] at hclean
    simp [RequestToken.save, hclean, exceptOk, hu]
  · rw [if_neg hu] at hclean
    by_cases hm1 : t.max_uses = 1
    · rw [if_neg (by simp [hm1])] at hclean
      cases hid : (pre_save t now ttl false).id <;>
        simp [RequestToken.save, hclean, hid, exceptOk, hu, hm1, hx]
    · rw [if_pos hm1] at hclean
      simp [RequestToken.save, hclean, exceptOk, hu, hm1]

/-- C5 witness: the statement instantiated at the SESSION-mode token
`tokC5w`, which has no `user`; its save fails with the `user` field named
and the empty store unchanged. -/
theorem C5_session_save_validation_witness :
    tokC5w.login_mode = .SESSION
    ∧ ((exceptOk (tokC5w.save storeEmpty 0 10 false).2 = false
        ↔ ¬(tokC5w.user ≠ none ∧ tokC5w.max_uses = 1
              ∧ (pre_save tokC5w 0 10 false).expiration_time ≠ none))
      ∧ (exceptOk (tokC5w.save storeEmpty 0 10 false).2 = false
          → (tokC5w.save storeEmpty 0 10 false).1 = storeEmpty)
      ∧ ((tokC5w.save storeEmpty 0 10 false).2
            = .error ⟨"user", "Session token must have a user."⟩
          ↔ tokC5w.user = none)
      ∧ ((tokC5w.save storeEmpty 0 10 false).2
            = .error ⟨"max_uses", "Session token must have max_use of 1."⟩
          ↔ (tokC5w.user ≠ none ∧ tokC5w.max_uses ≠ 1))) :=
  ⟨rfl, C5_session_save_validation storeEmpty tokC5w 0 10 rfl⟩

/-- C6: for every SESSION-mode token saved without an `expiration_time`,
the saved entity's `issued_at` is the incoming value when set and the
current time otherwise, its `expiration_time` is exactly that `issued_at`
plus the configured session TTL; and for every token `u`, a normal save
keeps an already-set `issued_at` and fills a missing one with the current
time. -/
theorem C6_session_expiry_autofill (s : Store) (t u : RequestToken)
    (now ttl : Int) (s2 : Store) (t2 : RequestToken)
    (hmode : t.login_mode = .SESSION) (hexp : t.expiration_time = none)
    (hsave : t.save s now ttl false = (s2, .ok t2)) :
    t2.issued_at = some (t.issued_at.getD now)
    ∧ t2.expiration_time = some (t.issued_at.getD now + minutes ttl)
    ∧ (pre_save u now ttl false).issued_at = some (u.issued_at.getD now) := by
  obtain ⟨he, hi, -⟩ := save_ok_fields s t now ttl false s2 t2 hsave
  refine ⟨?_, ?_, pre_save_issued_at u now ttl⟩
  · rw [hi, pre_save_issued_at]
  · rw [he, pre_save_session_expiration t now ttl hmode, hexp]
    rfl

/-- C6 witness: the statement instantiated at the valid SESSION-mode token
`tokC6w` (no `issued_at`, no `expiration_time`) saved into the empty store
at time 100 with a 10-minute TTL, and at `tokUsedUp` (whose `issued_at` is
already set) for the `pre_save` conjunct. -/
theorem C6_session_expiry_autofill_witness :
    tokC6w.login_mode = .SESSION ∧ tokC6w.expiration_time = none
    ∧ tokC6w.save storeEmpty 100 10 false = (storeC6saved, .ok tokC6saved)
    ∧ (tokC6saved.issued_at = some (tokC6w.issued_at.getD 100)
      ∧ tokC6saved.expiration_time = some (tokC6w.issued_at.getD 100 + minutes 10)
      ∧ (pre_save tokUsedUp 100 10 false).issued_at
          = some (tokUsedUp.issued_at.getD 100)) :=
  ⟨rfl, rfl, by decide,
    C6_session_expiry_autofill storeEmpty tokC6w tokUsedUp 100 10
      storeC6saved tokC6saved rfl rfl (by decide)⟩

/-- C7: for every token, `validate_max_uses` fails with `MaxUseError`
exactly when `used_to_date >= max_uses`, succeeds exactly when
`used_to_date < max_uses`, and does nothing but signal (it returns no
modified entity — the embedding is a pure function of the token). -/
theorem C7_validate_max_uses_iff (t : RequestToken) :
    ((∃ m, t.validate_max_uses = .error (.maxUseError m))
        ↔ t.used_to_date ≥ t.max_uses)
    ∧ (t.validate_max_uses = .ok () ↔ t.used_to_date < t.max_uses)
    ∧ (t.validate_max_uses = .ok ()
        ∨ t.validate_max_uses = .error (.maxUseError (maxUseMsg t))) := by
  by_cases h : t.used_to_date ≥ t.max_uses
  · simp [RequestToken.validate_max_uses, h, not_lt.mpr h]
  · simp [RequestToken.validate_max_uses, h, not_le.mp h]

/-- C8: for every token, the claims dict always binds `max` to `max_uses`,
`sub` to `scope` and `mod` to the lowercased first letter of `login_mode`
(`n`/`r`/`s`); binds `jti`, `aud`, `exp`, `iat`, `nbf` exactly when `id`,
`user`, `expiration_time`, `issued_at`, `not_before_time` respectively are
set (timestamps through `to_seconds`); contains no other key; and never
depends on the free-form `data` payload. -/
theorem C8_claims_map (t : RequestToken) :
    t.claims.lookup "max" = some (ClaimValue.int t.max_uses)
    ∧ t.claims.lookup "sub" = some (ClaimValue.str t.scope)
    ∧ t.claims.lookup "mod"
        = some (ClaimValue.str (pyFirstLower (login_mode_str t.login_mode)))
    ∧ (pyFirstLower (login_mode_str .NONE) = "n"
        ∧ pyFirstLower (login_mode_str .REQUEST) = "r"
        ∧ pyFirstLower (login_mode_str .SESSION) = "s")
    ∧ t.claims.lookup "jti" = t.id.map (fun i => ClaimValue.int (Int.ofNat i))
    ∧ t.claims.lookup "aud" = t.user.map (fun u => ClaimValue.int (Int.ofNat u))
    ∧ t.claims.lookup "exp"
        = t.expiration_time.map (fun d => ClaimValue.int (to_seconds d))
    ∧ t.claims.lookup "iat" = t.issued_at.map (fun d => ClaimValue.int (to_seconds d))
    ∧ t.claims.lookup "nbf"
        = t.not_before_time.map (fun d => ClaimValue.int (to_seconds d))
    ∧ (∀ p ∈ t.claims,
        p.1 ∈ (["max", "sub", "mod", "jti", "aud", "exp", "iat", "nbf"] : List String))
    ∧ (∀ d, RequestToken.claims { t with data := d } = t.claims) := by
  obtain ⟨oid, lm, ouser, sc, oexp, onbf, dat, oiat, mx, used⟩ := t
  refine ⟨?_, ?_, ?_, ⟨by decide, by decide, by decide⟩, ?_, ?_, ?_, ?_, ?_, ?_, ?_⟩ <;>
    cases oid <;> cases ouser <;> cases oexp <;> cases oiat <;> cases onbf <;>
      simp [RequestToken.claims, optClaim, List.lookup]

/-- C9: `parse_xff` maps the six specified inputs as listed and, for every
string input, returns the first comma-separated entry with surrounding
whitespace stripped. -/
theorem C9_parse_xff :
    parse_xff none = none
    ∧ parse_xff (some "") = some ""
    ∧ parse_xff (some "foo") = some "foo"
    ∧ parse_xff (some "foo, bar, baz") = some "foo"
    ∧ parse_xff (some "foo , bar, baz") = some "foo"
    ∧ parse_xff (some "8.8.8.8, 123.124.125.126") = some "8.8.8.8"
    ∧ ∀ s : String, parse_xff (some s) =
        some (String.mk (pyStripL (s.toList.takeWhile (fun c => c != ',')))) := by
  refine ⟨rfl, by decide, by decide, by decide, by decide, by decide, ?_⟩
  intro s
  simp only [parse_xff]
  rw [pySplit_headD]

/-- C10: for every completed `log` call carrying an error, the error-log
construction step runs exactly when `LOG_TOKEN_ERRORS` is enabled; with the
flag disabled no error-log instance is even built, the persisted error
table is unchanged, and the failed attempt is counted: the recomputed
`used_to_date` is the previous non-error count plus one. -/
theorem C10_error_logging_flag (t : RequestToken) (r : Request) (c : Int)
    (err : TokenError) (cfg : Config) (s : Store) (now : Int)
    (lg : RequestTokenLog) (t2 : RequestToken) (eo : Option RequestTokenErrorLog)
    (hwf : ∀ e ∈ s.errors, e.log < s.next_log_id)
    (hok : (t.log r c (some err) cfg s now).2 = .ok (lg, t2, eo)) :
    eo.isSome = cfg.log_token_errors
    ∧ (t.log r c (some err) cfg s now).1.errors = s.errors
    ∧ (cfg.log_token_errors = false →
        eo = none ∧ t2.used_to_date = countNonErrorLogs s t.id + 1) := by
  simp only [RequestToken.log] at hok ⊢
  obtain ⟨hlg, heo, hres⟩ := log_finish_ok _ _ _ _ _ _ _ hok
  obtain ⟨-, -, hused, -, herr, -, -⟩ := save_ok_fields _ _ _ _ _ _ _ hres
  have hcount : ∀ lg0 : RequestTokenLog, lg0.token = t.id →
      countNonErrorLogs (log_save s lg0 now).1 t.id
        = countNonErrorLogs s t.id + 1 := by
    intro lg0 h0
    rw [log_save_store]
    exact count_append_fresh s _ t.id ((log_save_token s lg0 now).trans h0)
      (fun e he => Nat.ne_of_lt (hwf e he))
  refine ⟨?_, ?_, ?_⟩
  · cases hc : cfg.log_token_errors <;> simp [heo, hc]
  · rw [herr, log_save_errors]
  · intro hc
    refine ⟨by simp [heo, hc], ?_⟩
    rw [hused]
    exact hcount _ rfl

/-- C10 witness: the statement instantiated at the failed second use of
`tokUsedUp` with error logging disabled: no error-log instance is built,
the error table stays empty, and `used_to_date` rises to 2 = 1 + 1. -/
theorem C10_error_logging_flag_witness :
    (∀ e ∈ storeC1.errors, e.log < storeC1.next_log_id)
    ∧ ((none : Option RequestTokenErrorLog).isSome = cfgOff.log_token_errors
      ∧ (tokUsedUp.log reqAnon 403 (some (TokenError.maxUseError "foo"))
            cfgOff storeC1 5).1.errors = storeC1.errors
      ∧ (cfgOff.log_token_errors = false →
          (none : Option RequestTokenErrorLog) = none
          ∧ tokAfterFail.used_to_date = countNonErrorLogs storeC1 tokUsedUp.id + 1)) :=
  ⟨by decide,
    C10_error_logging_flag tokUsedUp reqAnon 403 (TokenError.maxUseError "foo")
      cfgOff storeC1 5 lgSecond tokAfterFail none (by decide) (by decide)⟩

end RT
